import Mathlib

/-!
Shallow embedding of the transcode-job server (`src/server/server.js`).

JavaScript numbers on the paths modelled here are either NaN or an exact
value; we model them as `JsNum` with rationals for the numeric case.
(Float rounding is irrelevant to the properties below, which are about
branch structure, clamping and flooring.)
-/

namespace VideoServer

/-- A JavaScript number as it occurs on the progress path: either NaN or a
numeric value (modelled exactly as a rational). -/
inductive JsNum where
  | nan : JsNum
  | num : ℚ → JsNum
deriving DecidableEq

/-- JS `+` on numbers: NaN-propagating addition. -/
def jsAdd : JsNum → JsNum → JsNum
  | .num a, .num b => .num (a + b)
  | _, _ => .nan

/-- JS `*` on numbers: NaN-propagating multiplication. -/
def jsMul : JsNum → JsNum → JsNum
  | .num a, .num b => .num (a * b)
  | _, _ => .nan

/-- JS `/` on numbers. Division by zero yields ±Infinity in JS; the only
division in the source (`secs / duration`) is guarded by the truthiness of
`duration`, which excludes 0, so the zero case is unreachable and mapped
to `nan` here. -/
def jsDiv : JsNum → JsNum → JsNum
  | .num a, .num b => if b = 0 then .nan else .num (a / b)
  | _, _ => .nan

/-- `Math.floor`: floor on numbers, NaN on NaN. (`Rat.floor` rather than
`Int.floor` so that concrete inputs evaluate; the two agree, see
`jsFloor_num` below.) -/
def jsFloor : JsNum → JsNum
  | .num a => .num (Rat.floor a : ℤ)
  | .nan => .nan

/-- `Math.min`: the smaller argument, NaN if either argument is NaN.
(`Rat.blt` rather than `min` so that concrete inputs evaluate; the two
agree, see `jsMin_num` below.) -/
def jsMin : JsNum → JsNum → JsNum
  | .num a, .num b => .num (if Rat.blt a b then a else b)
  | _, _ => .nan

/-- Value of a decimal digit string (most significant first). -/
def digitsVal (l : List Char) : ℕ :=
  l.foldl (fun a c => a * 10 + (c.toNat - 48)) 0

/-- `parseInt(s, 10)`: optional sign, then the longest leading run of
decimal digits; NaN if that run is empty. (Trailing garbage is ignored,
as in JS.) -/
def parseIntJs (s : String) : JsNum :=
  let core : List Char → JsNum := fun cs =>
    let ds := cs.takeWhile Char.isDigit
    if ds.isEmpty then .nan else .num (digitsVal ds)
  match s.toList with
  | '-' :: rest =>
    match core rest with
    | .num v => .num (-v)
    | .nan => .nan
  | '+' :: rest => core rest
  | cs => core cs

/-- `parseFloat(s)`: optional sign, integer digits, optionally a dot and
fraction digits; NaN when no digits at all. (Trailing garbage ignored.) -/
def parseFloatJs (s : String) : JsNum :=
  let core : List Char → JsNum := fun cs =>
    let ip := cs.takeWhile Char.isDigit
    let rest := cs.drop ip.length
    match rest with
    | '.' :: rest2 =>
      let fp := rest2.takeWhile Char.isDigit
      if ip.isEmpty ∧ fp.isEmpty then .nan
      else .num ((digitsVal ip : ℚ) + (digitsVal fp : ℚ) / ((10 ^ fp.length : ℕ) : ℚ))
    | _ => if ip.isEmpty then .nan else .num (digitsVal ip)
  match s.toList with
  | '-' :: rest =>
    match core rest with
    | .num v => .num (-v)
    | .nan => .nan
  | '+' :: rest => core rest
  | cs => core cs

/-- JS `String.prototype.split` with a single-character separator:
`"".split(c) = [""]`, and empty fields are kept. -/
def splitOnCharAux (c : Char) : List Char → List Char → List (List Char)
  | [], acc => [acc.reverse]
  | x :: xs, acc =>
    if x = c then acc.reverse :: splitOnCharAux c xs []
    else splitOnCharAux c xs (x :: acc)

/-- `s.split(c)` for a one-character separator `c`. -/
def jsSplit (s : String) (c : Char) : List String :=
  (splitOnCharAux c s.toList []).map fun l => String.mk l

/-- One event delivered to the fluent-ffmpeg `on('progress')` callback:
it optionally carries a `timemark` string and/or a numeric `percent`
(`none` in the `percent` field models both absence and a non-number value,
since the source checks `typeof progress.percent === 'number'`;
`some .nan` models a present NaN, which passes that check). -/
structure ProgressEvent where
  timemark : Option String
  percent : Option JsNum
deriving DecidableEq

/-- Job status values stored in `progressStore`. -/
inductive Status where
  | queued
  | processing
  | ready
  | error
deriving DecidableEq

/-- One `progressStore` entry. Every field other than `status` is optional
because the source replaces the whole object at each transition, each time
listing only some of the fields. -/
structure Job where
  status : Status
  percent : Option JsNum := none
  error : Option String := none
  createdAt : Option String := none
  startedAt : Option String := none
  finishedAt : Option String := none
  raw : Option ProgressEvent := none
deriving DecidableEq

/-- `progressStore[id] = { status: 'queued', percent: 0, createdAt: ... }`
(server.js line 67). -/
def queuedJob (t : String) : Job :=
  { status := .queued, percent := some (.num 0), createdAt := some t }

/-- `progressStore[id] = { status: 'error', error: 'Could not read video
metadata.' }` (server.js line 73). -/
def probeErrorJob : Job :=
  { status := .error, error := some "Could not read video metadata." }

/-- `progressStore[id] = { status: 'error', error: 'Input has no audio or
video streams.' }` (server.js line 83). -/
def noStreamsJob : Job :=
  { status := .error, error := some "Input has no audio or video streams." }

/-- `progressStore[id] = { status: 'processing', percent: 0, startedAt: ... }`
(server.js line 88). -/
def processingJob (t : String) : Job :=
  { status := .processing, percent := some (.num 0), startedAt := some t }

/-- `progressStore[id] = { status: 'ready', percent: 100, finishedAt: ... }`
(server.js line 177). -/
def readyJob (t : String) : Job :=
  { status := .ready, percent := some (.num 100), finishedAt := some t }

/-- `progressStore[id] = { status: 'error', error: err && err.message }`
(server.js line 171). -/
def encodeErrorJob (msg : Option String) : Job :=
  { status := .error, error := msg }

/-- A stream descriptor as returned by ffprobe (only the field the server
reads). -/
structure StreamDesc where
  codec_type : String
deriving DecidableEq

/-- The ffprobe metadata the server reads: `format.duration` (absent or a
number) and the stream list. -/
structure Metadata where
  format_duration : Option ℚ
  streams : List StreamDesc

/-- `metadata.streams.some(s => s.codec_type === 'video')` (line 79). -/
def hasVideoStreams (md : Metadata) : Bool :=
  md.streams.any fun s => s.codec_type == "video"

/-- `metadata.streams.some(s => s.codec_type === 'audio')` (line 80). -/
def hasAudioStreams (md : Metadata) : Bool :=
  md.streams.any fun s => s.codec_type == "audio"

/-- `const duration = (metadata && metadata.format && metadata.format.duration)
? metadata.format.duration : null` (line 78): a falsy (absent or zero)
duration becomes `null`, modelled as `none`. -/
def extractDuration (md : Metadata) : Option ℚ :=
  match md.format_duration with
  | some d => if d = 0 then none else some d
  | none => none

/-- Truthiness of the `duration` variable (`null` and `0` are falsy). -/
def truthyNum : Option ℚ → Bool
  | some q => q != 0
  | none => false

/-- Truthiness of `progress.timemark` (`undefined` and `""` are falsy). -/
def truthyStr : Option String → Bool
  | some s => s != ""
  | none => false

/-- The adaptation-set entry list (server.js lines 94-96): push
`'id=0,streams=v'` when video is present, then `'id=1,streams=a'` when
audio is present. -/
def adaptationSetParts (hasVideo hasAudio : Bool) : List String :=
  (if hasVideo then ["id=0,streams=v"] else []) ++
  (if hasAudio then ["id=1,streams=a"] else [])

/-- `adaptationSetParts.join(' ')` (line 97). -/
def adaptationSetsArg (hasVideo hasAudio : Bool) : String :=
  String.intercalate " " (adaptationSetParts hasVideo hasAudio)

/-- The result of probing, as seen by the `ffmpeg.ffprobe` callback:
either an error or metadata. -/
inductive ProbeResult where
  | err
  | ok (md : Metadata)

/-- Observable outcome of running the ffprobe callback up to the point
where the encoder command would be started (lines 70-99): the job record
written to the store, whether `fs.unlinkSync(inputPath)` ran, and whether
control reached the construction/run of the ffmpeg command. -/
structure ProbeStep where
  job : Job
  uploadDeleted : Bool
  encoderInvoked : Bool
deriving DecidableEq

/-- The `ffmpeg.ffprobe` callback (lines 70-99): on error, store an error
record and return (no unlink, no encoder); with no audio and no video
stream, store an error record, unlink the upload and return; otherwise
store a processing record and proceed to invoke the encoder. -/
def ffprobeCallback (t : String) (res : ProbeResult) : ProbeStep :=
  match res with
  | .err =>
    { job := probeErrorJob, uploadDeleted := false, encoderInvoked := false }
  | .ok md =>
    if !hasVideoStreams md && !hasAudioStreams md then
      { job := noStreamsJob, uploadDeleted := true, encoderInvoked := false }
    else
      { job := processingJob t, uploadDeleted := false, encoderInvoked := true }

/-- `parseInt(parts[0], 10) * 3600 + parseInt(parts[1], 10) * 60 +
parseFloat(parts[2])` (line 158), over the `:`-split fields of a
timemark. -/
def timemarkSecs (tm : String) : JsNum :=
  let parts := jsSplit tm ':'
  jsAdd (jsAdd (jsMul (parseIntJs (parts.getD 0 "")) (.num 3600))
               (jsMul (parseIntJs (parts.getD 1 "")) (.num 60)))
        (parseFloatJs (parts.getD 2 ""))

/-- The `on('progress')` handler (lines 153-167), acting on the job record
`progressStore[id]`. If `duration` and `progress.timemark` are truthy and
the timemark splits into exactly 3 fields, store
`Math.min(100, Math.floor((secs / duration) * 100))`; with a different
field count store nothing (the direct-percent branch is NOT reached);
otherwise, if `typeof progress.percent === 'number'`, store
`Math.min(100, Math.floor(progress.percent))`. In every case the raw
event is stored in the `raw` field last. -/
def onProgress (duration : Option ℚ) (progress : ProgressEvent) (j : Job) : Job :=
  let j1 :=
    if truthyNum duration && truthyStr progress.timemark then
      if (jsSplit (progress.timemark.getD "") ':').length = 3 then
        let secs := timemarkSecs (progress.timemark.getD "")
        let percent := jsMin (.num 100)
          (jsFloor (jsMul (jsDiv secs (.num (duration.getD 0))) (.num 100)))
        { j with percent := some percent }
      else j
    else if progress.percent.isSome then
      { j with percent := some (jsMin (.num 100) (jsFloor (progress.percent.getD .nan))) }
    else j
  { j1 with raw := some progress }

/-- The in-memory `progressStore`: a map from id to job record. -/
def JobStore := String → Option Job

/-- `progressStore[id] = j` (wholesale replacement of the record). -/
def JobStore.update (s : JobStore) (id : String) (j : Job) : JobStore :=
  fun k => if k = id then some j else s k

/-- The empty store (no ids issued yet). -/
def emptyStore : JobStore := fun _ => none

/-- The response of `GET /status/:id` (lines 192-197): 404 with
`{ error: 'id not found' }` when the id is absent, otherwise the job
record itself. -/
inductive StatusResult where
  | notFound
  | found (j : Job)
deriving DecidableEq

/-- The status endpoint handler: look the id up in the store; a missing
entry yields the distinct not-found response. -/
def getStatus (store : JobStore) (id : String) : StatusResult :=
  match store id with
  | none => .notFound
  | some j => .found j

/-- Observable outcome of a terminal ffmpeg event handler: the new store
and whether `fs.unlinkSync(inputPath)` ran. -/
structure EndStep where
  store : JobStore
  uploadDeleted : Bool

/-- The `on('end')` handler (lines 175-179): replace the record with the
ready record and unlink the upload. -/
def onEnd (store : JobStore) (id t : String) : EndStep :=
  { store := store.update id (readyJob t), uploadDeleted := true }

/-- The `on('error')` handler (lines 168-174): replace the record with an
error record and unlink the upload. -/
def onEncodeError (store : JobStore) (id : String) (msg : Option String) : EndStep :=
  { store := store.update id (encodeErrorJob msg), uploadDeleted := true }

/-! ### Bridge lemmas between the executable `Rat` operations and their
Mathlib counterparts, and unfolding lemmas for `onProgress`. -/

lemma jsFloor_num (q : ℚ) : jsFloor (.num q) = .num ((⌊q⌋ : ℤ) : ℚ) := by
  have h : Rat.floor q = ⌊q⌋ := (Rat.floor_def' q).trans (Rat.floor_def).symm
  simp [jsFloor, h]

lemma jsMin_num (a b : ℚ) : jsMin (.num a) (.num b) = .num (min a b) := by
  by_cases h : Rat.blt a b
  · have hlt : a < b := h
    simp [jsMin, h, min_eq_left hlt.le]
  · have hle : b ≤ a := not_lt.mp (fun hlt => h hlt)
    simp [jsMin, h, min_eq_right hle]

/-- The raw event is stored on every progress tick, whatever branch runs. -/
lemma onProgress_raw (duration : Option ℚ) (ev : ProgressEvent) (j : Job) :
    (onProgress duration ev j).raw = some ev := rfl

/-- With a truthy duration and a truthy timemark that splits into three
fields, the handler stores `Math.min(100, Math.floor((secs/duration)*100))`,
regardless of the job's previous fields. -/
lemma onProgress_marker (d : ℚ) (tm : String) (pv : Option JsNum) (j : Job)
    (hd : d ≠ 0) (htm : tm ≠ "") (hlen : (jsSplit tm ':').length = 3) :
    (onProgress (some d) ⟨some tm, pv⟩ j).percent =
      some (jsMin (.num 100) (jsFloor (jsMul (jsDiv (timemarkSecs tm) (.num d)) (.num 100)))) := by
  simp [onProgress, truthyNum, truthyStr, hd, htm, hlen, bne_iff_ne]

/-- With a truthy duration and a truthy timemark that does NOT split into
three fields, the handler leaves `percent` unchanged (the direct-percent
branch is not reached). -/
lemma onProgress_marker_malformed (d : ℚ) (tm : String) (pv : Option JsNum) (j : Job)
    (hd : d ≠ 0) (htm : tm ≠ "") (hlen : (jsSplit tm ':').length ≠ 3) :
    (onProgress (some d) ⟨some tm, pv⟩ j).percent = j.percent := by
  simp [onProgress, truthyNum, truthyStr, hd, htm, hlen, bne_iff_ne]

/-- Updating the store at an id and reading it back yields the stored job. -/
lemma getStatus_update_self (store : JobStore) (id : String) (j : Job) :
    getStatus (store.update id j) id = .found j := by
  simp [getStatus, JobStore.update]

/-! ### Claims -/

/-- C1, counterexample: with total duration 100s, a progress tick with
timemark `00:00:50` stores percent 50, and a later tick with timemark
`00:00:30` stores percent 30 — the stored percent decreases, so an update
is not the max of the previous and the new value, refuting the claimed
monotonicity. -/
theorem C1_counterexample :
    (processingJob "t0").status = .processing ∧
    (onProgress (some 100) ⟨some "00:00:50", none⟩ (processingJob "t0")).status = .processing ∧
    (onProgress (some 100) ⟨some "00:00:50", none⟩ (processingJob "t0")).percent =
      some (JsNum.num 50) ∧
    (onProgress (some 100) ⟨some "00:00:30", none⟩
        (onProgress (some 100) ⟨some "00:00:50", none⟩ (processingJob "t0"))).percent =
      some (JsNum.num 30) ∧
    ¬ ((50 : ℚ) ≤ 30) := by
  refine ⟨rfl, rfl, ?_, ?_, ?_⟩ <;> with_unfolding_all decide

/-- C1 (amended): each interpreted progress update OVERWRITES the stored
percent with the newly interpreted value — the result does not depend on
the previously stored percent (so no max is taken and the stored value may
decrease). This holds on both interpreting branches: (1) the time-marker
branch (truthy duration, truthy three-field marker, server.js line 160),
and (2) the direct-percent branch (marker guard false, numeric percent
present, server.js line 164). -/
theorem C1_percent_overwrite :
    (∀ (d : ℚ) (tm : String) (pv : Option JsNum) (j j' : Job),
      d ≠ 0 → tm ≠ "" → (jsSplit tm ':').length = 3 →
      (onProgress (some d) ⟨some tm, pv⟩ j).percent =
        (onProgress (some d) ⟨some tm, pv⟩ j').percent) ∧
    (∀ (duration : Option ℚ) (ev : ProgressEvent) (j j' : Job) (v : JsNum),
      (truthyNum duration && truthyStr ev.timemark) = false →
      ev.percent = some v →
      (onProgress duration ev j).percent = (onProgress duration ev j').percent) := by
  refine ⟨?_, ?_⟩
  · intro d tm pv j j' hd htm hlen
    rw [onProgress_marker d tm pv j hd htm hlen, onProgress_marker d tm pv j' hd htm hlen]
  · intro duration ev j j' v hguard hp
    simp [onProgress, hguard, hp]

/-- C1 witness: the overwrite theorem applied, on the time-marker branch,
at duration 100 and timemark `00:00:30`, and, on the direct-percent
branch, at an event carrying percent 42 with no duration known — in both
cases to two jobs whose stored percents differ (0 and 100). -/
theorem C1_witness :
    ((100 : ℚ) ≠ 0 ∧ "00:00:30" ≠ "" ∧ (jsSplit "00:00:30" ':').length = 3 ∧
      (onProgress (some 100) ⟨some "00:00:30", none⟩ (processingJob "t")).percent =
        (onProgress (some 100) ⟨some "00:00:30", none⟩ (readyJob "t")).percent) ∧
    ((truthyNum none && truthyStr (ProgressEvent.mk none (some (.num 42))).timemark) = false ∧
      (ProgressEvent.mk none (some (.num 42))).percent = some (.num 42) ∧
      (onProgress none ⟨none, some (.num 42)⟩ (processingJob "t")).percent =
        (onProgress none ⟨none, some (.num 42)⟩ (readyJob "t")).percent) :=
  ⟨⟨by with_unfolding_all decide, by decide, by with_unfolding_all decide,
      C1_percent_overwrite.1 100 "00:00:30" none (processingJob "t") (readyJob "t")
        (by with_unfolding_all decide) (by decide) (by with_unfolding_all decide)⟩,
    ⟨rfl, rfl,
      C1_percent_overwrite.2 none ⟨none, some (.num 42)⟩ (processingJob "t") (readyJob "t")
        (.num 42) rfl rfl⟩⟩

/-- C2: evaluation of the ffprobe callback on its two no-work exit paths.
On probe failure the job becomes `error` and no encoder is invoked, but the
uploaded file is NOT deleted (`uploadDeleted = false`), contradicting the
claim that the original uploaded file is deleted in both cases; on the
no-usable-stream path the file IS deleted and no encoder is invoked. -/
theorem C2_probe_error_no_cleanup :
    (ffprobeCallback "t" .err).job.status = .error ∧
    (ffprobeCallback "t" .err).uploadDeleted = false ∧
    (ffprobeCallback "t" .err).encoderInvoked = false ∧
    (ffprobeCallback "t" (.ok ⟨none, []⟩)).job.status = .error ∧
    (ffprobeCallback "t" (.ok ⟨none, []⟩)).uploadDeleted = true ∧
    (ffprobeCallback "t" (.ok ⟨none, []⟩)).encoderInvoked = false := by
  refine ⟨?_, ?_, ?_, ?_, ?_, ?_⟩ <;> with_unfolding_all decide

/-- C3 (confirmed): when the encoder subprocess ends successfully for a job
currently in `processing`, the store afterwards holds the ready record:
status `ready`, percent exactly 100 (whatever the job's last interpreted
percent was — `prev` is arbitrary), finished timestamp set, and the
uploaded source file is deleted. -/
theorem C3_end_success (store : JobStore) (id t : String) (prev : Job)
    (hprev : store id = some prev) (hst : prev.status = .processing) :
    (onEnd store id t).store id = some (readyJob t) ∧
    (readyJob t).status = .ready ∧
    (readyJob t).percent = some (.num 100) ∧
    (readyJob t).finishedAt = some t ∧
    (onEnd store id t).uploadDeleted = true := by
  refine ⟨?_, rfl, rfl, rfl, rfl⟩
  simp [onEnd, JobStore.update]

/-- C3 witness: the end handler applied to a store holding a processing job
whose percent is 0 (not 100). -/
theorem C3_witness :
    (emptyStore.update "a" (processingJob "s")) "a" = some (processingJob "s") ∧
    (processingJob "s").status = .processing ∧
    ((onEnd (emptyStore.update "a" (processingJob "s")) "a" "f").store "a" =
        some (readyJob "f") ∧
      (readyJob "f").status = .ready ∧
      (readyJob "f").percent = some (.num 100) ∧
      (readyJob "f").finishedAt = some "f" ∧
      (onEnd (emptyStore.update "a" (processingJob "s")) "a" "f").uploadDeleted = true) :=
  ⟨by simp [JobStore.update, emptyStore], rfl,
    C3_end_success (emptyStore.update "a" (processingJob "s")) "a" "f" (processingJob "s")
      (by simp [JobStore.update, emptyStore]) rfl⟩

/-- C4 (confirmed): for any classification with at least one present media
type, the adaptation-set entry list has one entry per present type, the
video entry `id=0,streams=v` is present exactly when video is, the audio
entry `id=1,streams=a` exactly when audio is, the directive string splits
on a single space back into exactly those entries (so entries are
space-separated, not comma-separated), and with both types present the
string is literally the two entries joined by one space. -/
theorem C4_adaptation_sets (hv ha : Bool) (h : hv = true ∨ ha = true) :
    (adaptationSetParts hv ha).length =
      (if hv then 1 else 0) + (if ha then 1 else 0) ∧
    ("id=0,streams=v" ∈ adaptationSetParts hv ha ↔ hv = true) ∧
    ("id=1,streams=a" ∈ adaptationSetParts hv ha ↔ ha = true) ∧
    jsSplit (adaptationSetsArg hv ha) ' ' = adaptationSetParts hv ha ∧
    (hv = true → ha = true →
      adaptationSetsArg hv ha = "id=0,streams=v" ++ " " ++ "id=1,streams=a") := by
  cases hv with
  | false =>
    cases ha with
    | false => rcases h with h | h <;> simp at h
    | true =>
      refine ⟨by decide, by decide, by decide, by with_unfolding_all decide, ?_⟩
      intro h1 _; simp at h1
  | true =>
    cases ha with
    | false =>
      refine ⟨by decide, by decide, by decide, by with_unfolding_all decide, ?_⟩
      intro _ h2; simp at h2
    | true =>
      exact ⟨by decide, by decide, by decide, by with_unfolding_all decide,
        fun _ _ => by with_unfolding_all decide⟩

/-- C4 witness: both media types present. -/
theorem C4_witness :
    (true = true ∨ true = true) ∧
    ((adaptationSetParts true true).length =
        (if true then 1 else 0) + (if true then 1 else 0) ∧
      ("id=0,streams=v" ∈ adaptationSetParts true true ↔ true = true) ∧
      ("id=1,streams=a" ∈ adaptationSetParts true true ↔ true = true) ∧
      jsSplit (adaptationSetsArg true true) ' ' = adaptationSetParts true true ∧
      (true = true → true = true →
        adaptationSetsArg true true = "id=0,streams=v" ++ " " ++ "id=1,streams=a")) :=
  ⟨Or.inl rfl, C4_adaptation_sets true true (Or.inl rfl)⟩

/-- C5 (confirmed): with exactly one of audio/video present the entry list
has exactly one entry, the directive string is non-empty, splitting it on
a space recovers exactly the one-entry list (well-formed), and the string
is precisely that single entry. -/
theorem C5_single_type (hv ha : Bool) (h : hv ≠ ha) :
    (adaptationSetParts hv ha).length = 1 ∧
    adaptationSetsArg hv ha ≠ "" ∧
    jsSplit (adaptationSetsArg hv ha) ' ' = adaptationSetParts hv ha ∧
    adaptationSetsArg hv ha = (adaptationSetParts hv ha).getD 0 "" := by
  cases hv with
  | false =>
    cases ha with
    | false => exact absurd rfl h
    | true =>
      exact ⟨by decide, by decide, by with_unfolding_all decide, by decide⟩
  | true =>
    cases ha with
    | false =>
      exact ⟨by decide, by decide, by with_unfolding_all decide, by decide⟩
    | true => exact absurd rfl h

/-- C5 witness: video-only input. -/
theorem C5_witness :
    (true : Bool) ≠ false ∧
    ((adaptationSetParts true false).length = 1 ∧
      adaptationSetsArg true false ≠ "" ∧
      jsSplit (adaptationSetsArg true false) ' ' = adaptationSetParts true false ∧
      adaptationSetsArg true false = (adaptationSetParts true false).getD 0 "") :=
  ⟨by decide, C5_single_type true false (by decide)⟩

/-! ### Progress-interpreter claims (C6, C7) -/

lemma jsAdd_nan_left (x : JsNum) : jsAdd .nan x = .nan := by cases x <;> rfl

lemma jsMul_nan_left (x : JsNum) : jsMul .nan x = .nan := by cases x <;> rfl

lemma jsDiv_nan_left (x : JsNum) : jsDiv .nan x = .nan := by cases x <;> rfl

lemma jsMin_nan_right (x : JsNum) : jsMin x .nan = .nan := by cases x <;> rfl

/-- Flooring after clamping at 100 equals clamping at 100 after flooring
(100 is an integer). -/
lemma floor_min_100 (q : ℚ) : ⌊min (100 : ℚ) q⌋ = min 100 ⌊q⌋ := by
  rcases le_total (100 : ℚ) q with h | h
  · have h2 : (100 : ℤ) ≤ ⌊q⌋ := by
      rw [Int.le_floor]; exact_mod_cast h
    rw [min_eq_left h, min_eq_left h2]
    norm_num
  · have h2 : ⌊q⌋ ≤ (100 : ℤ) :=
      le_trans (Int.floor_mono h) (by norm_num)
    rw [min_eq_right h, min_eq_right h2]

/-- `Math.floor ∘ (min 100)` and `(min 100) ∘ Math.floor` agree on `JsNum`. -/
lemma jsFloor_jsMin_100 (x : JsNum) :
    jsFloor (jsMin (.num 100) x) = jsMin (.num 100) (jsFloor x) := by
  cases x with
  | nan => rfl
  | num q =>
    rw [jsMin_num, jsFloor_num, jsFloor_num, jsMin_num, floor_min_100]
    push_cast
    norm_num

/-- `(100 * s) / t = (s / t) * 100` on `JsNum` (the spec writes the scaling
one way, the source the other). -/
lemma jsDiv_hundred (s t : JsNum) :
    jsDiv (jsMul (.num 100) s) t = jsMul (jsDiv s t) (.num 100) := by
  cases s with
  | nan => cases t <;> rfl
  | num a =>
    cases t with
    | nan => rfl
    | num b =>
      by_cases hb : b = 0
      · simp [jsMul, jsDiv, hb]
      · simp [jsMul, jsDiv, hb]
        ring

/-- Stated from the claim wording of C6: if a WELL-FORMED `HH:MM:SS(.frac)`
time marker is present (three fields, the first two parsing as integers,
the third as a number) and the total duration is known, percent is
`floor(min(100, 100 * elapsed / total))`; OTHERWISE, if a direct numeric
percent is present, `floor(min(100, value))`; otherwise the previous value
is retained. -/
def wellFormedTimemark (tm : String) : Bool :=
  let parts := jsSplit tm ':'
  decide (parts.length = 3) &&
    !(parseIntJs (parts.getD 0 "") == .nan) &&
    !(parseIntJs (parts.getD 1 "") == .nan) &&
    !(parseFloatJs (parts.getD 2 "") == .nan)

/-- The percent-update rule exactly as the C6 claim words it (see
`wellFormedTimemark`). -/
def interpretClaimC6 (duration : Option ℚ) (ev : ProgressEvent)
    (prev : Option JsNum) : Option JsNum :=
  if (match ev.timemark with
      | some tm => wellFormedTimemark tm
      | none => false) && truthyNum duration then
    some (jsFloor (jsMin (.num 100)
      (jsDiv (jsMul (.num 100) (timemarkSecs (ev.timemark.getD ""))) (.num (duration.getD 0)))))
  else
    match ev.percent with
    | some v => some (jsFloor (jsMin (.num 100) v))
    | none => prev

/-- The percent-update rule as amended: the time-marker branch is entered
whenever a non-empty marker is present and the duration is known (truthy),
well-formed or not; inside it, only a three-field marker updates percent,
to `floor(min(100, 100 * secs / duration))` with `secs` computed from the
parsed fields (possibly NaN); a marker with a different field count
retains the previous value even if a direct percent is also present; the
direct-percent branch applies only when the duration is unknown or no
marker is present. -/
def interpretAmendedC6 (duration : Option ℚ) (ev : ProgressEvent)
    (prev : Option JsNum) : Option JsNum :=
  if truthyNum duration && truthyStr ev.timemark then
    if (jsSplit (ev.timemark.getD "") ':').length = 3 then
      some (jsFloor (jsMin (.num 100)
        (jsDiv (jsMul (.num 100) (timemarkSecs (ev.timemark.getD ""))) (.num (duration.getD 0)))))
    else prev
  else
    match ev.percent with
    | some v => some (jsFloor (jsMin (.num 100) v))
    | none => prev

/-- C6, counterexample: with duration 100 known, an event carrying the
malformed marker `12:34` (two fields, hence not well-formed) together with
a direct percent of 50. The claim's rule falls through to the
direct-percent branch and yields 50, but the handler keeps the previous
percent 0: the malformed-marker branch swallows the event. -/
theorem C6_counterexample :
    interpretClaimC6 (some 100) ⟨some "12:34", some (.num 50)⟩ (some (.num 0)) =
      some (JsNum.num 50) ∧
    (processingJob "t").percent = some (JsNum.num 0) ∧
    (onProgress (some 100) ⟨some "12:34", some (.num 50)⟩ (processingJob "t")).percent =
      some (JsNum.num 0) ∧
    some (JsNum.num 50) ≠ some (JsNum.num 0) := by
  refine ⟨?_, rfl, ?_, ?_⟩ <;> with_unfolding_all decide

/-- C6 (amended): on every progress event, the stored percent follows
`interpretAmendedC6` — the marker branch fires on any truthy marker when
the duration is truthy, a non-three-field marker retains the previous
value without consulting the direct percent, and otherwise a present
numeric percent is clamped and floored. -/
theorem C6_percent_rule (duration : Option ℚ) (ev : ProgressEvent) (j : Job) :
    (onProgress duration ev j).percent = interpretAmendedC6 duration ev j.percent := by
  unfold onProgress interpretAmendedC6
  by_cases h1 : (truthyNum duration && truthyStr ev.timemark) = true
  · rw [if_pos h1, if_pos h1]
    by_cases h2 : (jsSplit (ev.timemark.getD "") ':').length = 3
    · rw [if_pos h2, if_pos h2]
      simp [jsDiv_hundred, jsFloor_jsMin_100]
    · rw [if_neg h2, if_neg h2]
  · rw [if_neg h1, if_neg h1]
    cases hp : ev.percent with
    | none => simp [hp]
    | some v => simp [hp, jsFloor_jsMin_100]

/-- C7, counterexample: with duration 100 known, a marker `aa:bb:cc` has
three fields but none of them parses as a number; the handler still
updates the stored percent, to NaN — not an integer in `[0,100]`, and an
update where the claim says none may happen. -/
theorem C7_counterexample :
    (processingJob "t").percent = some (JsNum.num 0) ∧
    (onProgress (some 100) ⟨some "aa:bb:cc", none⟩ (processingJob "t")).percent =
      some JsNum.nan ∧
    some JsNum.nan ≠ some (JsNum.num 0) ∧
    JsNum.nan ≠ JsNum.num 0 ∧ JsNum.nan ≠ JsNum.num 100 := by
  refine ⟨rfl, ?_, ?_, ?_, ?_⟩ <;> with_unfolding_all decide

/-- C7 (amended): (1) a marker with a field count other than three never
updates percent (and the handler is a total function, so never fatal);
(2) when the three fields parse as non-negative numbers and the duration
is positive, the stored percent is an integer in `[0,100]`; (3) when the
first field does not parse as a number, the stored percent becomes NaN;
(4) a non-negative direct percent with no usable marker stores an integer
in `[0,100]`. -/
theorem C7_percent_bounds :
    (∀ (d : ℚ) (tm : String) (pv : Option JsNum) (j : Job),
      d ≠ 0 → tm ≠ "" → (jsSplit tm ':').length ≠ 3 →
      (onProgress (some d) ⟨some tm, pv⟩ j).percent = j.percent) ∧
    (∀ (d : ℚ) (tm : String) (pv : Option JsNum) (j : Job) (a b c : ℚ),
      0 < d → tm ≠ "" → (jsSplit tm ':').length = 3 →
      parseIntJs ((jsSplit tm ':').getD 0 "") = .num a → 0 ≤ a →
      parseIntJs ((jsSplit tm ':').getD 1 "") = .num b → 0 ≤ b →
      parseFloatJs ((jsSplit tm ':').getD 2 "") = .num c → 0 ≤ c →
      ∃ n : ℤ, (onProgress (some d) ⟨some tm, pv⟩ j).percent = some (.num (n : ℚ)) ∧
        0 ≤ n ∧ n ≤ 100) ∧
    (∀ (d : ℚ) (tm : String) (pv : Option JsNum) (j : Job),
      d ≠ 0 → tm ≠ "" → (jsSplit tm ':').length = 3 →
      parseIntJs ((jsSplit tm ':').getD 0 "") = .nan →
      (onProgress (some d) ⟨some tm, pv⟩ j).percent = some JsNum.nan) ∧
    (∀ (ev : ProgressEvent) (j : Job) (v : ℚ),
      ev.percent = some (.num v) → 0 ≤ v →
      ∃ n : ℤ, (onProgress none ev j).percent = some (.num (n : ℚ)) ∧
        0 ≤ n ∧ n ≤ 100) := by
  refine ⟨?_, ?_, ?_, ?_⟩
  · intro d tm pv j hd htm hlen
    exact onProgress_marker_malformed d tm pv j hd htm hlen
  · intro d tm pv j a b c hd htm hlen hpa ha hpb hb hpc hc
    rw [onProgress_marker d tm pv j (ne_of_gt hd) htm hlen]
    have hsecs : timemarkSecs tm = .num (a * 3600 + b * 60 + c) := by
      simp only [timemarkSecs]
      rw [hpa, hpb, hpc]
      simp [jsAdd, jsMul]
    have hdd : d ≠ 0 := ne_of_gt hd
    have hs : (0 : ℚ) ≤ a * 3600 + b * 60 + c :=
      add_nonneg (add_nonneg (mul_nonneg ha (by norm_num)) (mul_nonneg hb (by norm_num))) hc
    have hq : (0 : ℚ) ≤ (a * 3600 + b * 60 + c) / d * 100 :=
      mul_nonneg (div_nonneg hs hd.le) (by norm_num)
    refine ⟨min 100 ⌊(a * 3600 + b * 60 + c) / d * 100⌋, ?_,
      le_min (by norm_num) (Int.floor_nonneg.mpr hq), min_le_left _ _⟩
    rw [hsecs]
    simp only [jsDiv, if_neg hdd, jsMul]
    rw [jsFloor_num, jsMin_num]
    push_cast
    norm_num
  · intro d tm pv j hd htm hlen hna
    rw [onProgress_marker d tm pv j hd htm hlen]
    have hsecs : timemarkSecs tm = JsNum.nan := by
      simp only [timemarkSecs]
      rw [hna, jsMul_nan_left, jsAdd_nan_left, jsAdd_nan_left]
    rw [hsecs, jsDiv_nan_left, jsMul_nan_left]
    rfl
  · intro ev j v hp hv
    have hper : (onProgress none ev j).percent = some (jsMin (.num 100) (jsFloor (.num v))) := by
      simp [onProgress, truthyNum, hp]
    refine ⟨min 100 ⌊v⌋, ?_, le_min (by norm_num) (Int.floor_nonneg.mpr hv),
      min_le_left _ _⟩
    rw [hper, jsFloor_num, jsMin_num]
    push_cast
    norm_num

/-- C7 witness: the bounds theorem applied at duration 60 and marker
`00:00:30` (fields 0, 0, 30), yielding an in-range integer percent. -/
theorem C7_witness :
    (0 : ℚ) < 60 ∧ "00:00:30" ≠ "" ∧ (jsSplit "00:00:30" ':').length = 3 ∧
    (∃ n : ℤ,
      (onProgress (some 60) ⟨some "00:00:30", none⟩ (processingJob "t")).percent =
        some (.num (n : ℚ)) ∧ 0 ≤ n ∧ n ≤ 100) :=
  ⟨by norm_num, by decide, by with_unfolding_all decide,
    C7_percent_bounds.2.1 60 "00:00:30" none (processingJob "t") 0 0 30
      (by norm_num) (by decide) (by with_unfolding_all decide)
      (by with_unfolding_all decide) le_rfl
      (by with_unfolding_all decide) le_rfl
      (by with_unfolding_all decide) (by norm_num)⟩

/-! ### Store and lifecycle claims (C8, C9, C10) -/

/-- C8 (confirmed): a status query for an id not present in the store
returns the distinct not-found signal; a query for a stored id returns the
stored job record; and the not-found signal is distinct from every job
record (it carries none, so it can never be confused with a default or
zero-valued job). -/
theorem C8_status_query (store : JobStore) (id : String) :
    (store id = none → getStatus store id = .notFound) ∧
    (∀ j : Job, store id = some j → getStatus store id = .found j) ∧
    (∀ j : Job, StatusResult.notFound ≠ .found j) := by
  refine ⟨?_, ?_, ?_⟩
  · intro h; simp [getStatus, h]
  · intro j h; simp [getStatus, h]
  · intro j h; cases h

/-- C8 witness: the empty store knows no id; a store holding one queued job
returns it. -/
theorem C8_witness :
    emptyStore "never-issued" = none ∧
    getStatus emptyStore "never-issued" = .notFound ∧
    (emptyStore.update "a" (queuedJob "t")) "a" = some (queuedJob "t") ∧
    getStatus (emptyStore.update "a" (queuedJob "t")) "a" = .found (queuedJob "t") :=
  ⟨rfl, (C8_status_query emptyStore "never-issued").1 rfl,
    by simp [JobStore.update, emptyStore],
    (C8_status_query (emptyStore.update "a" (queuedJob "t")) "a").2.1 (queuedJob "t")
      (by simp [JobStore.update, emptyStore])⟩

/-- C9, counterexample: each transition replaces the whole record, so the
created timestamp set at submission is already gone from the record stored
at the `queued → processing` transition, and the record a status query
returns for a job that reached `ready` contains neither the created nor
the started timestamp — refuting that all earlier-set timestamps remain
present through later transitions. -/
theorem C9_counterexample :
    getStatus (emptyStore.update "a" (queuedJob "T0")) "a" = .found (queuedJob "T0") ∧
    (queuedJob "T0").createdAt = some "T0" ∧
    getStatus ((emptyStore.update "a" (queuedJob "T0")).update "a" (processingJob "T1")) "a" =
      .found (processingJob "T1") ∧
    (processingJob "T1").createdAt = none ∧
    (onEnd ((emptyStore.update "a" (queuedJob "T0")).update "a" (processingJob "T1"))
        "a" "T2").store "a" = some (readyJob "T2") ∧
    (readyJob "T2").createdAt = none ∧
    (readyJob "T2").startedAt = none ∧
    (readyJob "T2").finishedAt = some "T2" := by
  refine ⟨?_, rfl, ?_, rfl, ?_, rfl, rfl, rfl⟩ <;>
    simp [getStatus, JobStore.update, onEnd, emptyStore]

/-- C9 (amended): the created, started and finished timestamps are each
set at most once and in lifecycle order (created on the queued record,
started on the processing record, finished on the ready record), but every
transition stores a fresh record, so earlier timestamps do not remain: the
processing record carries only `startedAt`, the ready record only
`finishedAt`, encoder-error records carry no timestamp at all, and a
status query after a successful end returns a record whose only timestamp
is the finished one. -/
theorem C9_record_replacement (t0 t1 t2 : String) :
    ((queuedJob t0).createdAt = some t0 ∧ (queuedJob t0).startedAt = none ∧
      (queuedJob t0).finishedAt = none) ∧
    ((processingJob t1).startedAt = some t1 ∧ (processingJob t1).createdAt = none ∧
      (processingJob t1).finishedAt = none) ∧
    ((readyJob t2).finishedAt = some t2 ∧ (readyJob t2).createdAt = none ∧
      (readyJob t2).startedAt = none) ∧
    (∀ msg : Option String, (encodeErrorJob msg).createdAt = none ∧
      (encodeErrorJob msg).startedAt = none ∧ (encodeErrorJob msg).finishedAt = none) ∧
    (∀ (store : JobStore) (id : String),
      getStatus ((onEnd store id t2).store) id = .found (readyJob t2)) := by
  refine ⟨⟨rfl, rfl, rfl⟩, ⟨rfl, rfl, rfl⟩, ⟨rfl, rfl, rfl⟩, fun msg => ⟨rfl, rfl, rfl⟩, ?_⟩
  intro store id
  simp [onEnd, getStatus_update_self]

/-- C10 (confirmed): every progress event — informative or not — is stored
verbatim in the job record's `raw` field, and a status query on the
updated store returns that record, `raw` field included. -/
theorem C10_raw_stored (duration : Option ℚ) (ev : ProgressEvent)
    (store : JobStore) (id : String) (j : Job) (h : store id = some j) :
    (onProgress duration ev j).raw = some ev ∧
    getStatus (store.update id (onProgress duration ev j)) id =
      .found (onProgress duration ev j) :=
  ⟨onProgress_raw duration ev j, getStatus_update_self store id (onProgress duration ev j)⟩

/-- C10 witness: an uninformative tick (no timemark, no percent) on a
stored processing job still lands in the `raw` field and is visible via
the status read. -/
theorem C10_witness :
    (emptyStore.update "a" (processingJob "t")) "a" = some (processingJob "t") ∧
    ((onProgress none ⟨none, none⟩ (processingJob "t")).raw = some ⟨none, none⟩ ∧
      getStatus ((emptyStore.update "a" (processingJob "t")).update "a"
          (onProgress none ⟨none, none⟩ (processingJob "t"))) "a" =
        .found (onProgress none ⟨none, none⟩ (processingJob "t"))) :=
  ⟨by simp [JobStore.update, emptyStore],
    C10_raw_stored none ⟨none, none⟩ (emptyStore.update "a" (processingJob "t")) "a"
      (processingJob "t") (by simp [JobStore.update, emptyStore])⟩

end VideoServer
